import Mathlib

/-!
Verification of the Scene Manager of the CS-330 still-life renderer
(`Source/SceneManager.cpp`), as described by its natural-language
specification.  The C++ methods are embedded shallowly:

* the texture registry `m_textureIDs` / `m_loadedTextures` is a
  `List TEXTURE_ID` (the count is the list length, appending models the
  write at index `m_loadedTextures` followed by the increment);
* the material registry `m_objectMaterials` is a `List OBJECT_MATERIAL`;
* GPU texture handles (`GLuint` values produced by `glGenTextures`) are
  opaque naturals — the program never does arithmetic on them;
* the image decoder (`stbi_load`) is an `Option DecodedImage` argument:
  `none` is a decode failure, `some img` a successful decode;
* calls into the GL that matter to the claims are recorded as values
  (`GLCall` for teardown, unit/handle pairs for `BindGLTextures`);
* the shader uniform store behind `m_pShaderManager` is an explicit
  `ShaderState` record.  The embedding assumes an attached shader
  manager (`m_pShaderManager != NULL`), the mode in which every push
  helper runs in this program; `SetShaderMaterial` dereferences the
  pointer unconditionally, so the code itself assumes it as well.
  Color and material scalars (C++ `float`) are modelled as rationals,
  angles and matrices (trigonometry) over the reals.
-/

/-- A texture registry record: `TEXTURE_ID` from `SceneManager.h`,
with the `GLuint ID` handle and the lookup `tag`. -/
structure TEXTURE_ID where
  ID : Nat
  tag : String
deriving Repr, DecidableEq

/-- The result of `stbi_load`: width, height and channel count of a
successfully decoded image. -/
structure DecodedImage where
  width : Int
  height : Int
  colorChannels : Int
deriving Repr, DecidableEq

/-- `SceneManager::CreateGLTexture`.  Arguments: the current registry,
the decoder result for the file, the fresh handle `glGenTextures` would
hand back on the success path, and the tag.  Returns the C++ `bool`
result together with the registry after the call.  Mirrors the source:
a failed decode returns `false` with nothing registered; a decoded
image with a channel count other than 3 or 4 hits the `else` branch and
returns `false` before the registration lines; otherwise the record is
written at index `m_loadedTextures` and the count incremented, which on
the list model is an append. -/
def createGLTexture (regs : List TEXTURE_ID) (decoded : Option DecodedImage)
    (newID : Nat) (tag : String) : Bool × List TEXTURE_ID :=
  match decoded with
  | none => (false, regs)
  | some img =>
    if img.colorChannels = 3 ∨ img.colorChannels = 4 then
      (true, regs ++ [⟨newID, tag⟩])
    else
      (false, regs)

/-- The loop body counter of `SceneManager::BindGLTextures`: starting
from unit index `i`, emit one `(texture unit, handle)` binding per
remaining registry entry (`glActiveTexture(GL_TEXTURE0 + i)` followed
by `glBindTexture(..., m_textureIDs[i].ID)`). -/
def bindGLTexturesFrom : Nat → List TEXTURE_ID → List (Nat × Nat)
  | _, [] => []
  | i, r :: rest => (i, r.ID) :: bindGLTexturesFrom (i + 1) rest

/-- `SceneManager::BindGLTextures`: the list of
`(texture unit, handle)` bindings issued, in order. -/
def bindGLTextures (regs : List TEXTURE_ID) : List (Nat × Nat) :=
  bindGLTexturesFrom 0 regs

/-- A GL call observable during teardown: `glGenTextures(n, ...)`
allocates `n` fresh texture objects, `glDeleteTextures` releases the
given handles. -/
inductive GLCall where
  | genTextures (n : Nat)
  | deleteTextures (handles : List Nat)
deriving Repr, DecidableEq

/-- `SceneManager::DestroyGLTextures`: the list of GL calls the loop
issues.  The source body is `glGenTextures(1, &m_textureIDs[i].ID)` —
one *allocation* per registered entry, and no delete call anywhere. -/
def destroyGLTextures (regs : List TEXTURE_ID) : List GLCall :=
  regs.map (fun _ => GLCall.genTextures 1)

/-- `SceneManager::FindTextureID`: first-match scan over the registry,
returning the handle (a `GLuint` stored into an `int`) of the first
record whose tag compares equal, and the sentinel `-1` when the scan
runs off the end. -/
def findTextureID : List TEXTURE_ID → String → Int
  | [], _ => -1
  | r :: rest, tag => if r.tag = tag then (r.ID : Int) else findTextureID rest tag

/-- The scan loop of `SceneManager::FindTextureSlot`, carrying the
`int index` counter: on a tag match the current index is returned,
otherwise the index is incremented and the scan continues; falling off
the end leaves the initial `textureSlot = -1`. -/
def findTextureSlotFrom : List TEXTURE_ID → String → Int → Int
  | [], _, _ => -1
  | r :: rest, tag, index =>
    if r.tag = tag then index else findTextureSlotFrom rest tag (index + 1)

/-- `SceneManager::FindTextureSlot`: the scan started at index 0. -/
def findTextureSlot (regs : List TEXTURE_ID) (tag : String) : Int :=
  findTextureSlotFrom regs tag 0

/-- Modelled from the spec: the registry array `m_textureIDs` is
declared in `SceneManager.h`, which is not under `src/`; the spec fixes
its capacity — "Stored in an append-only, fixed-capacity (16) ordered
sequence" and "There are up to 16 slots" (the comment of
`BindGLTextures` in the source agrees). -/
def textureArrayCapacity : Nat := 16

/-- A color triple (C++ `glm::vec3`), modelled over the rationals. -/
abbrev Color3 := ℚ × ℚ × ℚ

/-- A material registry record: `OBJECT_MATERIAL` from
`SceneManager.h`, with diffuse color, specular color, shininess and the
lookup tag. -/
structure OBJECT_MATERIAL where
  diffuseColor : Color3
  specularColor : Color3
  shininess : ℚ
  tag : String
deriving Repr, DecidableEq

/-- The scan loop of `SceneManager::FindMaterial`: first-match scan; on
a tag match the diffuse color, specular color and shininess fields of
the out-parameter are overwritten (the tag field is not copied), and
the scan stops; with no match the out-parameter comes back as it
went in. -/
def findMaterialScan : List OBJECT_MATERIAL → String → OBJECT_MATERIAL → OBJECT_MATERIAL
  | [], _, material => material
  | m :: rest, tag, material =>
    if m.tag = tag then
      { material with
          diffuseColor := m.diffuseColor
          specularColor := m.specularColor
          shininess := m.shininess }
    else findMaterialScan rest tag material

/-- `SceneManager::FindMaterial`: returns the C++ `bool` result paired
with the out-parameter after the call.  Mirrors the source: an empty
registry returns `false` at once; otherwise the scan loop runs and the
function returns `true` — **whether or not any record matched**. -/
def findMaterial (mats : List OBJECT_MATERIAL) (tag : String)
    (material : OBJECT_MATERIAL) : Bool × OBJECT_MATERIAL :=
  if mats.length = 0 then (false, material)
  else (true, findMaterialScan mats tag material)

/-- The shader uniform slots this component pushes to (the store behind
`m_pShaderManager`), restricted to the uniforms the claims are about. -/
structure ShaderState where
  bUseTexture : Bool
  objectColor : ℚ × ℚ × ℚ × ℚ
  objectTexture : Int
  materialDiffuseColor : Color3
  materialSpecularColor : Color3
  materialShininess : ℚ
deriving Repr, DecidableEq

/-- `SceneManager::SetShaderColor`: pushes `false` to `bUseTexture` and
the RGBA quadruple to `objectColor`. -/
def setShaderColor (r g b a : ℚ) (s : ShaderState) : ShaderState :=
  { s with bUseTexture := false, objectColor := (r, g, b, a) }

/-- `SceneManager::SetShaderTexture`: pushes `true` to `bUseTexture`
and the slot resolved by `FindTextureSlot` to the `objectTexture`
sampler (the sentinel `-1` included, when the tag is unknown). -/
def setShaderTexture (regs : List TEXTURE_ID) (textureTag : String)
    (s : ShaderState) : ShaderState :=
  { s with bUseTexture := true, objectTexture := findTextureSlot regs textureTag }

/-- `SceneManager::SetShaderMaterial`.  The local
`OBJECT_MATERIAL material;` is declared without an initializer, so its
indeterminate initial contents are an explicit argument `material0`.
Mirrors the source: nothing happens on an empty registry; otherwise
`FindMaterial` runs and, when it reports `true`, the three material
uniforms are pushed from the out-parameter. -/
def setShaderMaterial (mats : List OBJECT_MATERIAL) (materialTag : String)
    (material0 : OBJECT_MATERIAL) (s : ShaderState) : ShaderState :=
  if mats.length > 0 then
    let res := findMaterial mats materialTag material0
    if res.1 = true then
      { s with
          materialDiffuseColor := res.2.diffuseColor
          materialSpecularColor := res.2.specularColor
          materialShininess := res.2.shininess }
    else s
  else s

/-- A 4x4 real matrix (C++ `glm::mat4`), acting on column vectors. -/
abbrev Mat4 := Matrix (Fin 4) (Fin 4) ℝ

/-- A real 3-vector (C++ `glm::vec3`) as a triple. -/
abbrev Vec3R := ℝ × ℝ × ℝ

/-- `glm::radians`: degrees to radians. -/
noncomputable def radians (degrees : ℝ) : ℝ := degrees * (Real.pi / 180)

/-- `glm::scale(v)`: the homogeneous scaling matrix. -/
def glmScale (v : Vec3R) : Mat4 :=
  Matrix.of ![![v.1, 0, 0, 0],
               ![0, v.2.1, 0, 0],
               ![0, 0, v.2.2, 0],
               ![0, 0, 0, 1]]

/-- `glm::translate(v)`: the homogeneous translation matrix (the
translation sits in the fourth column, as glm acts on column
vectors). -/
def glmTranslate (v : Vec3R) : Mat4 :=
  Matrix.of ![![1, 0, 0, v.1],
               ![0, 1, 0, v.2.1],
               ![0, 0, 1, v.2.2],
               ![0, 0, 0, 1]]

/-- `glm::rotate(angle, v)`: the homogeneous axis-angle rotation matrix
glm builds (the Rodrigues form, the axis normalized first), written in
row-major order for column-vector action — glm stores the transpose
arrangement column-major, entry for entry the same matrix. -/
noncomputable def glmRotate (angle : ℝ) (v : Vec3R) : Mat4 :=
  let c := Real.cos angle
  let s := Real.sin angle
  let n := Real.sqrt (v.1 ^ 2 + v.2.1 ^ 2 + v.2.2 ^ 2)
  let x := v.1 / n
  let y := v.2.1 / n
  let z := v.2.2 / n
  Matrix.of ![![c + (1 - c) * x * x, (1 - c) * x * y - s * z, (1 - c) * x * z + s * y, 0],
               ![(1 - c) * x * y + s * z, c + (1 - c) * y * y, (1 - c) * y * z - s * x, 0],
               ![(1 - c) * x * z - s * y, (1 - c) * y * z + s * x, c + (1 - c) * z * z, 0],
               ![0, 0, 0, 1]]

/-- `SceneManager::SetTransformations`: the model matrix pushed to the
shader, computed exactly as the source does —
`translation * rotationZ * rotationY * rotationX * scale`, each factor
built by the corresponding glm helper from the degree-valued angles. -/
noncomputable def setTransformations (scaleXYZ : Vec3R)
    (XrotationDegrees YrotationDegrees ZrotationDegrees : ℝ)
    (positionXYZ : Vec3R) : Mat4 :=
  glmTranslate positionXYZ *
    glmRotate (radians ZrotationDegrees) (0, 0, 1) *
    glmRotate (radians YrotationDegrees) (0, 1, 0) *
    glmRotate (radians XrotationDegrees) (1, 0, 0) *
    glmScale scaleXYZ

/-- The textbook rotation about the X axis by `t` radians, homogeneous,
for column vectors (the matrix the spec names `RotationX`). -/
noncomputable def rotXSpec (t : ℝ) : Mat4 :=
  Matrix.of ![![1, 0, 0, 0],
               ![0, Real.cos t, -Real.sin t, 0],
               ![0, Real.sin t, Real.cos t, 0],
               ![0, 0, 0, 1]]

/-- The textbook rotation about the Y axis by `t` radians (the matrix
the spec names `RotationY`). -/
noncomputable def rotYSpec (t : ℝ) : Mat4 :=
  Matrix.of ![![Real.cos t, 0, Real.sin t, 0],
               ![0, 1, 0, 0],
               ![-Real.sin t, 0, Real.cos t, 0],
               ![0, 0, 0, 1]]

/-- The textbook rotation about the Z axis by `t` radians (the matrix
the spec names `RotationZ`). -/
noncomputable def rotZSpec (t : ℝ) : Mat4 :=
  Matrix.of ![![Real.cos t, -Real.sin t, 0, 0],
               ![Real.sin t, Real.cos t, 0, 0],
               ![0, 0, 1, 0],
               ![0, 0, 0, 1]]

/-- The homogeneous scaling matrix as the spec writes it (diagonal of
the three scale factors and 1). -/
def scaleSpec (v : Vec3R) : Mat4 :=
  Matrix.of ![![v.1, 0, 0, 0],
               ![0, v.2.1, 0, 0],
               ![0, 0, v.2.2, 0],
               ![0, 0, 0, 1]]

/-- The homogeneous translation matrix as the spec writes it. -/
def translationSpec (v : Vec3R) : Mat4 :=
  Matrix.of ![![1, 0, 0, v.1],
               ![0, 1, 0, v.2.1],
               ![0, 0, 1, v.2.2],
               ![0, 0, 0, 1]]

lemma glmRotate_xAxis (t : ℝ) : glmRotate t (1, 0, 0) = rotXSpec t := by
  have hn : Real.sqrt ((1 : ℝ) ^ 2 + 0 ^ 2 + 0 ^ 2) = 1 := by norm_num
  ext i j
  fin_cases i <;> fin_cases j <;> simp [glmRotate, rotXSpec, hn]

lemma glmRotate_yAxis (t : ℝ) : glmRotate t (0, 1, 0) = rotYSpec t := by
  have hn : Real.sqrt ((0 : ℝ) ^ 2 + 1 ^ 2 + 0 ^ 2) = 1 := by norm_num
  ext i j
  fin_cases i <;> fin_cases j <;> simp [glmRotate, rotYSpec, hn]

lemma glmRotate_zAxis (t : ℝ) : glmRotate t (0, 0, 1) = rotZSpec t := by
  have hn : Real.sqrt ((0 : ℝ) ^ 2 + 0 ^ 2 + 1 ^ 2) = 1 := by norm_num
  ext i j
  fin_cases i <;> fin_cases j <;> simp [glmRotate, rotZSpec, hn]

lemma glmScale_eq_spec (v : Vec3R) : glmScale v = scaleSpec v := rfl

lemma glmTranslate_eq_spec (v : Vec3R) : glmTranslate v = translationSpec v := rfl

/-- C4: for all scale vectors, rotation angles in degrees (converted to
radians internally) and position vectors, the model matrix computed by
`SetTransformations` equals the product
`Translation * RotationZ * RotationY * RotationX * Scale` of the
textbook matrices, and applies to column vectors accordingly (scale
first, then rotate about X, Y, Z, then translate). -/
theorem c4_transform_compose_order :
    ∀ (scaleXYZ : Vec3R) (xr yr zr : ℝ) (positionXYZ : Vec3R),
      setTransformations scaleXYZ xr yr zr positionXYZ =
        translationSpec positionXYZ * rotZSpec (radians zr) * rotYSpec (radians yr) *
          rotXSpec (radians xr) * scaleSpec scaleXYZ ∧
      ∀ v : Fin 4 → ℝ,
        (setTransformations scaleXYZ xr yr zr positionXYZ).mulVec v =
          (translationSpec positionXYZ).mulVec ((rotZSpec (radians zr)).mulVec
            ((rotYSpec (radians yr)).mulVec ((rotXSpec (radians xr)).mulVec
              ((scaleSpec scaleXYZ).mulVec v)))) := by
  intro scaleXYZ xr yr zr positionXYZ
  have hM : setTransformations scaleXYZ xr yr zr positionXYZ =
      translationSpec positionXYZ * rotZSpec (radians zr) * rotYSpec (radians yr) *
        rotXSpec (radians xr) * scaleSpec scaleXYZ := by
    rw [setTransformations, glmRotate_xAxis, glmRotate_yAxis, glmRotate_zAxis,
      glmScale_eq_spec, glmTranslate_eq_spec]
  refine ⟨hM, fun v => ?_⟩
  rw [hM]
  simp [Matrix.mulVec_mulVec, Matrix.mul_assoc]

lemma bindGLTexturesFrom_getElem (regs : List TEXTURE_ID) :
    ∀ (k i : Nat),
      (bindGLTexturesFrom k regs)[i]? = (regs[i]?).map (fun r => (k + i, r.ID)) := by
  induction regs with
  | nil => intro k i; simp [bindGLTexturesFrom]
  | cons r rest ih =>
    intro k i
    cases i with
    | zero => simp [bindGLTexturesFrom]
    | succ n =>
      have h := ih (k + 1) n
      simp only [bindGLTexturesFrom, List.getElem?_cons_succ, h]
      have : k + 1 + n = k + (n + 1) := by omega
      rw [this]

lemma bindGLTextures_getElem (regs : List TEXTURE_ID) (i : Nat) :
    (bindGLTextures regs)[i]? = (regs[i]?).map (fun r => (i, r.ID)) := by
  have h := bindGLTexturesFrom_getElem regs 0 i
  simpa [bindGLTextures] using h

lemma createGLTexture_success (regs : List TEXTURE_ID) (img : DecodedImage)
    (nid : Nat) (tg : String)
    (hch : img.colorChannels = 3 ∨ img.colorChannels = 4) :
    createGLTexture regs (some img) nid tg = (true, regs ++ [⟨nid, tg⟩]) := by
  simp [createGLTexture, hch]

/-- C5: the texture unit `BindGLTextures` binds a registry entry to is
exactly the registry slot index of that entry, and a successful
`CreateGLTexture` registers the new record at slot `m_loadedTextures`
(the previous count) — so the i-th loaded texture is bound to texture
unit i, and load order determines unit order. -/
theorem c5_unit_matches_slot :
    ∀ (regs : List TEXTURE_ID) (i : Nat) (r : TEXTURE_ID),
      (regs[i]? = some r → (bindGLTextures regs)[i]? = some (i, r.ID)) ∧
      (∀ (img : DecodedImage) (nid : Nat) (tg : String),
        img.colorChannels = 3 ∨ img.colorChannels = 4 →
        ((createGLTexture regs (some img) nid tg).2)[regs.length]? = some ⟨nid, tg⟩ ∧
        (bindGLTextures ((createGLTexture regs (some img) nid tg).2))[regs.length]? =
          some (regs.length, nid)) := by
  intro regs i r
  constructor
  · intro h
    rw [bindGLTextures_getElem, h]; rfl
  · intro img nid tg hch
    rw [createGLTexture_success regs img nid tg hch]
    have hcat : (regs ++ [(⟨nid, tg⟩ : TEXTURE_ID)])[regs.length]? =
        some (⟨nid, tg⟩ : TEXTURE_ID) := by
      rw [List.getElem?_append_right (Nat.le_refl _)]
      simp
    refine ⟨hcat, ?_⟩
    rw [bindGLTextures_getElem, hcat]; rfl

/-- Witness for C5 at a concrete two-entry registry and a concrete
successful load. -/
theorem c5_unit_matches_slot_witness :
    (bindGLTextures [⟨5, "a"⟩, ⟨9, "b"⟩])[1]? = some (1, 9) ∧
    ((createGLTexture [⟨5, "a"⟩, ⟨9, "b"⟩] (some ⟨2, 2, 3⟩) 11 "c").2)[2]? =
      some ⟨11, "c"⟩ ∧
    (bindGLTextures
      ((createGLTexture [⟨5, "a"⟩, ⟨9, "b"⟩] (some ⟨2, 2, 3⟩) 11 "c").2))[2]? =
      some (2, 11) :=
  ⟨(c5_unit_matches_slot [⟨5, "a"⟩, ⟨9, "b"⟩] 1 ⟨9, "b"⟩).1 (by decide),
   ((c5_unit_matches_slot [⟨5, "a"⟩, ⟨9, "b"⟩] 1 ⟨9, "b"⟩).2 ⟨2, 2, 3⟩ 11 "c"
      (Or.inl rfl)).1,
   ((c5_unit_matches_slot [⟨5, "a"⟩, ⟨9, "b"⟩] 1 ⟨9, "b"⟩).2 ⟨2, 2, 3⟩ 11 "c"
      (Or.inl rfl)).2⟩

lemma findTextureID_eq_neg_one_iff (regs : List TEXTURE_ID) (tag : String) :
    findTextureID regs tag = -1 ↔ ∀ r ∈ regs, r.tag ≠ tag := by
  induction regs with
  | nil => simp [findTextureID]
  | cons r rest ih =>
    by_cases h : r.tag = tag
    · have hval : findTextureID (r :: rest) tag = (r.ID : Int) := by
        simp [findTextureID, h]
      rw [hval]
      constructor
      · intro hid
        exact absurd hid (by omega)
      · intro hall
        exact absurd h (hall r (List.mem_cons_self r rest))
    · have hval : findTextureID (r :: rest) tag = findTextureID rest tag := by
        simp [findTextureID, h]
      rw [hval, ih]
      constructor
      · intro hall x hx
        rcases List.mem_cons.mp hx with hx | hx
        · subst hx; exact h
        · exact hall x hx
      · intro hall x hx
        exact hall x (List.mem_cons_of_mem r hx)

lemma findTextureSlotFrom_eq_neg_one_iff (regs : List TEXTURE_ID) (tag : String) :
    ∀ k : Int, 0 ≤ k →
      (findTextureSlotFrom regs tag k = -1 ↔ ∀ r ∈ regs, r.tag ≠ tag) := by
  induction regs with
  | nil => intro k _; simp [findTextureSlotFrom]
  | cons r rest ih =>
    intro k hk
    by_cases h : r.tag = tag
    · have hval : findTextureSlotFrom (r :: rest) tag k = k := by
        simp [findTextureSlotFrom, h]
      rw [hval]
      constructor
      · intro hkneg
        exact absurd hkneg (by omega)
      · intro hall
        exact absurd h (hall r (List.mem_cons_self r rest))
    · have hval : findTextureSlotFrom (r :: rest) tag k =
          findTextureSlotFrom rest tag (k + 1) := by
        simp [findTextureSlotFrom, h]
      rw [hval, ih (k + 1) (by omega)]
      constructor
      · intro hall x hx
        rcases List.mem_cons.mp hx with hx | hx
        · subst hx; exact h
        · exact hall x hx
      · intro hall x hx
        exact hall x (List.mem_cons_of_mem r hx)

lemma findTextureSlot_eq_neg_one_iff (regs : List TEXTURE_ID) (tag : String) :
    findTextureSlot regs tag = -1 ↔ ∀ r ∈ regs, r.tag ≠ tag := by
  rw [findTextureSlot]
  exact findTextureSlotFrom_eq_neg_one_iff regs tag 0 (by omega)

/-- C6: `FindTextureSlot` and `FindTextureID` return the sentinel `-1`
exactly when no registered record carries the queried tag (so for each
tag never passed to a successful load they return the sentinel), and
after a successful `CreateGLTexture` with a tag, both return a
non-sentinel value for that tag. -/
theorem c6_sentinel_iff_unregistered :
    ∀ (regs : List TEXTURE_ID) (tag : String),
      (findTextureSlot regs tag = -1 ↔ ∀ r ∈ regs, r.tag ≠ tag) ∧
      (findTextureID regs tag = -1 ↔ ∀ r ∈ regs, r.tag ≠ tag) ∧
      ∀ (img : DecodedImage) (nid : Nat),
        img.colorChannels = 3 ∨ img.colorChannels = 4 →
        findTextureSlot ((createGLTexture regs (some img) nid tag).2) tag ≠ -1 ∧
        findTextureID ((createGLTexture regs (some img) nid tag).2) tag ≠ -1 := by
  intro regs tag
  refine ⟨findTextureSlot_eq_neg_one_iff regs tag,
    findTextureID_eq_neg_one_iff regs tag, ?_⟩
  intro img nid hch
  have h2 : (createGLTexture regs (some img) nid tag).2 = regs ++ [⟨nid, tag⟩] := by
    rw [createGLTexture_success regs img nid tag hch]
  rw [h2]
  have hnot : ¬ ∀ r ∈ regs ++ [(⟨nid, tag⟩ : TEXTURE_ID)], r.tag ≠ tag := by
    intro hall
    exact hall ⟨nid, tag⟩ (List.mem_append_right regs (List.mem_singleton.mpr rfl)) rfl
  constructor
  · intro heq
    exact hnot ((findTextureSlot_eq_neg_one_iff (regs ++ [⟨nid, tag⟩]) tag).mp heq)
  · intro heq
    exact hnot ((findTextureID_eq_neg_one_iff (regs ++ [⟨nid, tag⟩]) tag).mp heq)

/-- Witness for C6: on the empty registry the sentinel comes back for
the tag `wood`; after one successful 3-channel load under that tag both
lookups return a non-sentinel value. -/
theorem c6_sentinel_iff_unregistered_witness :
    findTextureSlot [] "wood" = -1 ∧
    findTextureSlot ((createGLTexture [] (some ⟨8, 8, 3⟩) 5 "wood").2) "wood" ≠ -1 ∧
    findTextureID ((createGLTexture [] (some ⟨8, 8, 3⟩) 5 "wood").2) "wood" ≠ -1 :=
  ⟨(c6_sentinel_iff_unregistered [] "wood").1.mpr (by simp),
   ((c6_sentinel_iff_unregistered [] "wood").2.2 ⟨8, 8, 3⟩ 5 (Or.inl rfl)).1,
   ((c6_sentinel_iff_unregistered [] "wood").2.2 ⟨8, 8, 3⟩ 5 (Or.inl rfl)).2⟩

/-- C7: `CreateGLTexture` is atomic on failure — on a decode failure,
or a decoded image whose channel count is neither 3 nor 4, it returns
`false` and the registry is exactly unchanged. -/
theorem c7_load_failure_leaves_registry :
    ∀ (regs : List TEXTURE_ID) (decoded : Option DecodedImage) (nid : Nat)
      (tg : String),
      (decoded = none ∨
        ∃ img, decoded = some img ∧ img.colorChannels ≠ 3 ∧ img.colorChannels ≠ 4) →
      (createGLTexture regs decoded nid tg).1 = false ∧
      (createGLTexture regs decoded nid tg).2 = regs := by
  rintro regs decoded nid tg (rfl | ⟨img, rfl, h3, h4⟩)
  · exact ⟨rfl, rfl⟩
  · constructor <;> simp [createGLTexture, h3, h4]

/-- Witness for C7: a 2-channel image under a one-entry registry fails
and leaves the registry as it was. -/
theorem c7_load_failure_leaves_registry_witness :
    (createGLTexture [⟨7, "wood"⟩] (some ⟨4, 4, 2⟩) 9 "gray").1 = false ∧
    (createGLTexture [⟨7, "wood"⟩] (some ⟨4, 4, 2⟩) 9 "gray").2 = [⟨7, "wood"⟩] :=
  c7_load_failure_leaves_registry [⟨7, "wood"⟩] (some ⟨4, 4, 2⟩) 9 "gray"
    (Or.inr ⟨⟨4, 4, 2⟩, rfl, by decide, by decide⟩)

/-- A concrete registered material under the tag `metal`, used as the
one-entry material registry in the lookup evaluations. -/
def matMetal : OBJECT_MATERIAL :=
  { diffuseColor := (1, 1, 1), specularColor := (2, 2, 2), shininess := 8,
    tag := "metal" }

/-- A stand-in for the indeterminate contents of the uninitialized
local `OBJECT_MATERIAL material;` in `SetShaderMaterial` (only the
`std::string` tag field is default-constructed, to the empty string). -/
def matJunk : OBJECT_MATERIAL :=
  { diffuseColor := (1, 2, 3), specularColor := (4, 5, 6), shininess := 7,
    tag := "" }

/-- A concrete prior shader state, with material slots all zero. -/
def shader0 : ShaderState :=
  { bUseTexture := false, objectColor := (0, 0, 0, 0), objectTexture := 0,
    materialDiffuseColor := (0, 0, 0), materialSpecularColor := (0, 0, 0),
    materialShininess := 0 }

/-- C1 (refuted by the code): on a registry holding one loaded texture
with handle 7, `DestroyGLTextures` issues exactly one
`glGenTextures(1, ...)` call — a create-new operation — and issues no
`glDeleteTextures` call at all, for any handle list. -/
theorem c1_destroy_creates_instead_of_deleting :
    destroyGLTextures [⟨7, "wood"⟩] = [GLCall.genTextures 1] ∧
    ∀ hs : List Nat, GLCall.deleteTextures hs ∉ destroyGLTextures [⟨7, "wood"⟩] := by
  refine ⟨rfl, ?_⟩
  intro hs h
  rw [show destroyGLTextures [⟨7, "wood"⟩] = [GLCall.genTextures 1] from rfl] at h
  rcases List.mem_singleton.mp h with h
  exact GLCall.noConfusion h

/-- C2 (refuted by the code): on the one-entry material registry
`[matMetal]` no record carries the tag `wood`, yet `FindMaterial`
returns `true` for that tag (the out-parameter coming back untouched);
on the empty registry it does return `false`. -/
theorem c2_find_material_true_without_match :
    (∀ m ∈ [matMetal], m.tag ≠ "wood") ∧
    findMaterial [matMetal] "wood" matJunk = (true, matJunk) ∧
    findMaterial [] "wood" matJunk = (false, matJunk) := by
  refine ⟨?_, ?_, rfl⟩
  · intro m hm
    rcases List.mem_singleton.mp hm with rfl
    decide
  · rfl

/-- C3 (refuted by the code): with the non-empty registry `[matMetal]`
and the unmatched tag `wood`, `SetShaderMaterial` does not leave the
prior shader state `shader0` untouched — because `FindMaterial` reports
`true`, it pushes the three fields of the uninitialized local material
record (`matJunk`) to the shader. -/
theorem c3_set_material_pushes_without_match :
    (∀ m ∈ [matMetal], m.tag ≠ "wood") ∧
    setShaderMaterial [matMetal] "wood" matJunk shader0 =
      { shader0 with
          materialDiffuseColor := matJunk.diffuseColor
          materialSpecularColor := matJunk.specularColor
          materialShininess := matJunk.shininess } ∧
    setShaderMaterial [matMetal] "wood" matJunk shader0 ≠ shader0 := by
  refine ⟨?_, rfl, ?_⟩
  · intro m hm
    rcases List.mem_singleton.mp hm with rfl
    decide
  · decide

/-- C8: `SetShaderColor` always pushes `false` to the texture-enabled
flag (besides the RGBA color), and `SetShaderTexture` always pushes
`true` to it, so a draw right after either sees that flag value. -/
theorem c8_color_and_texture_flag :
    ∀ (r g b a : ℚ) (regs : List TEXTURE_ID) (tg : String) (s s2 : ShaderState),
      (setShaderColor r g b a s).bUseTexture = false ∧
      (setShaderColor r g b a s).objectColor = (r, g, b, a) ∧
      (setShaderTexture regs tg s2).bUseTexture = true := by
  intro r g b a regs tg s s2
  exact ⟨rfl, rfl, rfl⟩

/-- C9: when the material registry is non-empty and no record matches
the queried tag, `FindMaterial` still returns `true` and hands the
caller-supplied out-parameter back completely unmodified. -/
theorem c9_no_match_preserves_out_param :
    ∀ (mats : List OBJECT_MATERIAL) (tg : String) (material : OBJECT_MATERIAL),
      mats ≠ [] → (∀ m ∈ mats, m.tag ≠ tg) →
      findMaterial mats tg material = (true, material) := by
  intro mats tg material hne hall
  have hscan : ∀ (l : List OBJECT_MATERIAL) (m0 : OBJECT_MATERIAL),
      (∀ m ∈ l, m.tag ≠ tg) → findMaterialScan l tg m0 = m0 := by
    intro l
    induction l with
    | nil => intro m0 _; rfl
    | cons x xs ih =>
      intro m0 hl
      have hx : x.tag ≠ tg := hl x (List.mem_cons_self x xs)
      have hxs : ∀ m ∈ xs, m.tag ≠ tg := fun m hm => hl m (List.mem_cons_of_mem x hm)
      simp [findMaterialScan, hx, ih m0 hxs]
  have hlen : mats.length ≠ 0 := fun h => hne (List.length_eq_zero.mp h)
  simp [findMaterial, hlen, hscan mats material hall]

/-- Witness for C9 at a concrete one-entry registry and unmatched
tag. -/
theorem c9_no_match_preserves_out_param_witness :
    findMaterial [matMetal] "stone" matJunk = (true, matJunk) :=
  c9_no_match_preserves_out_param [matMetal] "stone" matJunk (by decide)
    (by intro m hm; rcases List.mem_singleton.mp hm with rfl; decide)

/-- C10: a successful `CreateGLTexture` writes the new record at slot
`m_loadedTextures` (the current count `regs.length`), with no capacity
check; that write stays inside the 16-entry `m_textureIDs` array only
when fewer than 16 textures were loaded, and a successful load on a
full 16-entry registry writes index 16 — past the end of the array. -/
theorem c10_seventeenth_load_past_capacity :
    ∀ (regs : List TEXTURE_ID) (img : DecodedImage) (nid : Nat) (tg : String),
      img.colorChannels = 3 ∨ img.colorChannels = 4 →
      ((createGLTexture regs (some img) nid tg).2)[regs.length]? = some ⟨nid, tg⟩ ∧
      (regs.length < textureArrayCapacity ↔
        ((createGLTexture regs (some img) nid tg).2).length ≤ textureArrayCapacity) ∧
      (regs.length = textureArrayCapacity →
        textureArrayCapacity < ((createGLTexture regs (some img) nid tg).2).length) := by
  intro regs img nid tg hch
  have h2 : (createGLTexture regs (some img) nid tg).2 = regs ++ [⟨nid, tg⟩] := by
    rw [createGLTexture_success regs img nid tg hch]
  rw [h2]
  have hcat : (regs ++ [(⟨nid, tg⟩ : TEXTURE_ID)])[regs.length]? =
      some (⟨nid, tg⟩ : TEXTURE_ID) := by
    rw [List.getElem?_append_right (Nat.le_refl _)]
    simp
  refine ⟨hcat, ?_, ?_⟩ <;> rw [List.length_append] <;> simp [textureArrayCapacity] <;> omega

/-- Witness for C10: a 16-entry registry plus one more successful
4-channel load puts the new record at index 16, and the registry
outgrows the 16-slot array. -/
theorem c10_seventeenth_load_past_capacity_witness :
    ((createGLTexture (List.replicate 16 ⟨1, "t"⟩) (some ⟨2, 2, 4⟩) 9 "extra").2)[16]? =
      some ⟨9, "extra"⟩ ∧
    textureArrayCapacity <
      ((createGLTexture (List.replicate 16 ⟨1, "t"⟩) (some ⟨2, 2, 4⟩) 9 "extra").2).length :=
  ⟨(c10_seventeenth_load_past_capacity (List.replicate 16 ⟨1, "t"⟩) ⟨2, 2, 4⟩ 9 "extra"
      (Or.inr rfl)).1,
   (c10_seventeenth_load_past_capacity (List.replicate 16 ⟨1, "t"⟩) ⟨2, 2, 4⟩ 9 "extra"
      (Or.inr rfl)).2.2 rfl⟩
